import Mathlib

/-!
Verification of the ainstein-ai RAG pipeline (src/app) against its
natural-language specification.

Shallow embedding conventions:
- Python strings holding document content are modelled as `List Char`
  (Python slicing and `len` act on code points); short identifier strings
  stay `String`.
- A Python dict with possibly-missing keys is modelled as a structure of
  `Option` fields; reading a missing key raises `Err.keyError`.
- Python exceptions are modelled by the `Err` type; a method that can raise
  returns `Except Err _`.  In-place mutation of the pipeline object is
  modelled by explicit state passing: a stateful method returns
  `Except Err Unit × PipelineState`, the second component being the state of
  the object when the method returns or when the exception escapes it.
- External collaborators (ChromaDB store, OpenAI embeddings, llama_index
  retriever / query engine, LLM synthesis) are modelled as oracles supplied
  in an environment record, constrained only by their interface contract.
-/

/-- Python exceptions raised by the pipeline code or by external
collaborators. -/
inductive Err where
  /-- Raised as `ValueError("No documents loaded. Check source directories.")`
  at `pipeline.py:70`. -/
  | emptyCorpus : Err
  /-- Raised as `ValueError("Pipeline not initialized. Call build_index()
  first.")` at `pipeline.py:100`. -/
  | notInitialized : Err
  /-- Models `KeyError` from reading a missing dict key. -/
  | keyError : String → Err
  /-- Any exception escaping an external collaborator. -/
  | external : String → Err
deriving DecidableEq, Repr

/-- Message text of an exception, as `str(e)` in Python. -/
def Err.message : Err → String
  | .emptyCorpus => "No documents loaded. Check source directories."
  | .notInitialized => "Pipeline not initialized. Call build_index() first."
  | .keyError k => k
  | .external m => m

/-- Metadata dict attached to a loaded document (`loader.py:78-84`); each
field is optional because the preprocessor accepts arbitrary dicts. -/
structure Metadata where
  path : Option String := none
  filename : Option String := none
  extension : Option String := none
  size : Option Nat := none
  directory : Option String := none
deriving DecidableEq, Repr

/-- A raw document dict as consumed by the preprocessor: keys `content` and
`metadata` may each be absent. -/
structure Doc where
  content : Option (List Char) := none
  metadata : Option Metadata := none
deriving DecidableEq, Repr

/-- Python `str.strip()`: remove leading and trailing whitespace. -/
def pyStrip (s : List Char) : List Char :=
  ((s.dropWhile Char.isWhitespace).reverse.dropWhile Char.isWhitespace).reverse

/-- The truncation marker `"..."` appended at `preprocessor.py:63`. -/
def ellipsisMarker : List Char := ['.', '.', '.']

/-- Embeds `content[:200] + "..." if len(content) > 200 else content`
(`preprocessor.py:63`). -/
def contentPreviewOf (content : List Char) : List Char :=
  if content.length > 200 then content.take 200 ++ ellipsisMarker else content

/-- Chunk metadata built at `preprocessor.py:58-64`: the document metadata
dict spread into new keys. -/
structure ChunkMeta where
  base : Metadata
  chunk_id : Nat
  chunk_index : Nat
  total_chunks : Nat
  content_preview : List Char
deriving DecidableEq, Repr

/-- A preprocessed document chunk (`preprocessor.py:66-69`). -/
structure PDoc where
  content : List Char
  metadata : ChunkMeta
deriving DecidableEq, Repr

/-- Embeds `DocumentPreprocessor._preprocess_single_document`
(`preprocessor.py:51-69`): strips content, builds chunk metadata with
`chunk_index = 0`, `total_chunks = 1` and the bounded preview.  Raises
`KeyError` when the `content` or `metadata` key is absent. -/
def preprocess_single_document (doc : Doc) (doc_id : Nat) : Except Err PDoc :=
  match doc.content with
  | none => .error (.keyError "content")
  | some c =>
    let content := pyStrip c
    match doc.metadata with
    | none => .error (.keyError "metadata")
    | some md =>
      .ok { content := content
            metadata := { base := md
                          chunk_id := doc_id
                          chunk_index := 0
                          total_chunks := 1
                          content_preview := contentPreviewOf content } }

/-- One iteration of the loop body of
`DocumentPreprocessor.preprocess_documents` (`preprocessor.py:26-41`).
On success the chunk is appended; the success-path debug log may itself
raise a `KeyError` (missing `filename`/`size` in the metadata) but that is
caught by the same handler after the append, so the output is unaffected.
On a preprocessing failure the handler reads
`doc['metadata'].get('filename', 'unknown')`: if the `metadata` key is
absent this read raises `KeyError` out of the handler and the whole call
aborts; otherwise the failure is logged and the document dropped. -/
def preprocess_step (doc : Doc) (i : Nat) (acc : List PDoc) :
    Except Err (List PDoc) :=
  match preprocess_single_document doc i with
  | .ok pd => .ok (acc ++ [pd])
  | .error _ =>
    match doc.metadata with
    | none => .error (.keyError "metadata")
    | some _ => .ok acc

/-- The loop of `preprocess_documents`, threading the index `i` and the
accumulated `processed_docs`. -/
def preprocess_go : List Doc → Nat → List PDoc → Except Err (List PDoc)
  | [], _, acc => .ok acc
  | d :: rest, i, acc =>
    match preprocess_step d i acc with
    | .error e => .error e
    | .ok acc' => preprocess_go rest (i + 1) acc'

/-- Embeds `DocumentPreprocessor.preprocess_documents` (`preprocessor.py:10-49`). -/
def preprocess_documents (docs : List Doc) : Except Err (List PDoc) :=
  preprocess_go docs 0 []

example :
    preprocess_documents [{ content := some ['h', 'i'], metadata := some {} }] =
      .ok [{ content := ['h', 'i']
             metadata := { base := {}, chunk_id := 0, chunk_index := 0
                           total_chunks := 1, content_preview := ['h', 'i'] } }] := rfl

example :
    preprocess_documents [{ content := some ['h', 'i'], metadata := none }] =
      .error (.keyError "metadata") := rfl

/-- A scored node as returned by the llama_index vector search
(`VectorIndexRetriever.retrieve`) and carried in `response.source_nodes`.
`id` is the node's external identifier (the chunk id the Embedding Store
upserted it under); `score` is `None`-able as in `NodeWithScore`. -/
structure NodeWithScore where
  id : Nat
  text : List Char
  filename : Option String := none
  path : Option String := none
  score : Option Rat := none
deriving DecidableEq, Repr

/-- One entry of the `results` list built at `retriever.py:57-62`:
`{content, metadata, score, rank}`.  `NodeWithScore` always has a `score`
attribute, so `node.score if hasattr(node, 'score') else 0.0` is the
(possibly `None`) score itself. -/
structure RetEntry where
  content : List Char
  filename : Option String := none
  path : Option String := none
  score : Option Rat := none
  rank : Nat
deriving DecidableEq, Repr

/-- The entry built for `node` at 0-based loop position `i`
(`retriever.py:56-63`): rank is `i + 1`. -/
def mkRetEntry (node : NodeWithScore) (i : Nat) : RetEntry :=
  { content := node.text
    filename := node.filename
    path := node.path
    score := node.score
    rank := i + 1 }

/-- The `for i, node in enumerate(retrieved_nodes)` loop of
`retrieve_documents`, starting at position `start`. -/
def buildResults (start : Nat) : List NodeWithScore → List RetEntry
  | [] => []
  | n :: rest => mkRetEntry n start :: buildResults (start + 1) rest

/-- The dict returned by `RAGRetriever.retrieve_documents`
(`retriever.py:82-87`). -/
structure RetOutcome where
  query : String
  results : List RetEntry
  total_results : Nat
deriving DecidableEq, Repr

/-- Embeds `RAGRetriever.retrieve_documents` applied to the nodes the external
vector search returned (`retriever.py:32-91`): every retrieved node is
turned into a result entry, with no relevance cutoff. -/
def retrieve_documents_of (query : String) (retrieved : List NodeWithScore) :
    RetOutcome :=
  { query := query
    results := buildResults 0 retrieved
    total_results := retrieved.length }

/-- The similarity cutoff fixed at retriever construction
(`retriever.py:27`: `SimilarityPostprocessor(similarity_cutoff=0.7)`). -/
def similarity_cutoff : Rat := mkRat 7 10

/-- Contract of the external `SimilarityPostprocessor` applied by the query
engine (`retriever.py:25-28`): keeps exactly the nodes whose score exists
and meets the cutoff (a node with score `None` fails the cutoff test and is
dropped). -/
def similarityPostprocess (cutoff : Rat) (nodes : List NodeWithScore) :
    List NodeWithScore :=
  nodes.filter fun n =>
    match n.score with
    | some s => decide (cutoff ≤ s)
    | none => false

/-- One source entry built at `retriever.py:117-121`:
`{filename, path, score}` with `'unknown'` defaults. -/
structure SourceEntry where
  filename : String
  path : String
  score : Option Rat
deriving DecidableEq, Repr

/-- The `source_info` extraction loop of `generate_response`
(`retriever.py:114-121`): one entry per source node, in order, with no
deduplication. -/
def sourceInfoOf (nodes : List NodeWithScore) : List SourceEntry :=
  nodes.map fun n =>
    { filename := n.filename.getD "unknown"
      path := n.path.getD "unknown"
      score := n.score }

/-- The dict returned by `RAGRetriever.generate_response`
(`retriever.py:123-129`). -/
structure GenOutcome where
  query : String
  response : String
  sources : List SourceEntry
  response_length : Nat
deriving DecidableEq, Repr

/-- Oracle for the external calls made during one query: the nodes the
vector search returns (or the exception it raises), and the synthesized
answer text from the LLM (or the exception it raises). -/
structure QueryEnv where
  retrieved : Except Err (List NodeWithScore)
  answer : Except Err String

/-- Contract of the external `RetrieverQueryEngine.query`
(`retriever.py:25-28`, `retriever.py:109`): retrieve candidates, apply the
configured `SimilarityPostprocessor`, synthesize an answer over the
survivors, and expose the survivors as `response.source_nodes`.  Any
provider failure propagates. -/
def queryEngineRun (qenv : QueryEnv) :
    Except Err (String × List NodeWithScore) :=
  match qenv.retrieved with
  | .error e => .error e
  | .ok nodes =>
    match qenv.answer with
    | .error e => .error e
    | .ok a => .ok (a, similarityPostprocess similarity_cutoff nodes)

/-- Embeds `RAGRetriever.retrieve_documents` (`retriever.py:32-91`): the try block
re-raises any retrieval failure unchanged (`retriever.py:89-91`). -/
def retrieve_documents (qenv : QueryEnv) (query : String) :
    Except Err RetOutcome :=
  match qenv.retrieved with
  | .error e => .error e
  | .ok nodes => .ok (retrieve_documents_of query nodes)

/-- Embeds `RAGRetriever.generate_response` (`retriever.py:93-141`): runs the query
engine, extracts `source_info` from `response.source_nodes`, and re-raises
any failure unchanged (`retriever.py:139-141`). -/
def generate_response (qenv : QueryEnv) (query : String) :
    Except Err GenOutcome :=
  match queryEngineRun qenv with
  | .error e => .error e
  | .ok (a, source_nodes) =>
    .ok { query := query
          response := a
          sources := sourceInfoOf source_nodes
          response_length := a.length }

/-- Decidable check that a list of optional scores is present at every
position and non-increasing between adjacent positions. -/
def scoresNonIncreasing : List (Option Rat) → Bool
  | [] => true
  | [a] => a.isSome
  | a :: b :: rest =>
    (match a, b with
     | some x, some y => decide (y ≤ x)
     | _, _ => false) && scoresNonIncreasing (b :: rest)

example :
    generate_response
      { retrieved := .ok [{ id := 0, text := ['a'], score := some (mkRat 9 10) },
                          { id := 1, text := ['b'], score := some (mkRat 1 2) }]
        answer := .ok "ans" } "q" =
    .ok { query := "q", response := "ans"
          sources := [{ filename := "unknown", path := "unknown", score := some (mkRat 9 10) }]
          response_length := 3 } := by
  rfl

/-- Opaque handle to a built or reopened vector index
(a `VectorStoreIndex`). -/
structure IndexHandle where
  id : Nat
deriving DecidableEq, Repr

/-- A constructed `RAGRetriever` (`retriever.py:14-30`): bound to one index
and one `top_k` at construction time, never mutated afterwards. -/
structure RetrieverHandle where
  index : IndexHandle
  top_k : Nat
deriving DecidableEq, Repr

/-- The mutable fields of the `RAGPipeline` object read and written by
`build_index` and `query` (`pipeline.py:21-31`). -/
structure PipelineState where
  top_k : Nat
  index : Option IndexHandle := none
  retriever : Option RetrieverHandle := none
deriving DecidableEq, Repr

/-- Oracle for the external calls made during one `build_index` run:
whether the persistence directory exists, what
`embedder.load_existing_index()` returns or raises, what the loader
returns, what `embedder.create_vector_store` returns or raises, and
whether `RAGRetriever.__init__` (which builds llama_index engine objects)
raises for a given index. -/
structure BuildEnv where
  persistExists : Bool
  loadExisting : Except Err IndexHandle
  loadedDocuments : List Doc
  createVectorStore : List PDoc → Except Err IndexHandle
  retrieverInitErr : IndexHandle → Option Err

/-- Embeds `RAGRetriever(index, top_k)` construction (`pipeline.py:50`,
`pipeline.py:79`): deterministic on success, but the llama_index
constructors it calls may raise. -/
def mkRetriever (env : BuildEnv) (idx : IndexHandle) (k : Nat) :
    Except Err RetrieverHandle :=
  match env.retrieverInitErr idx with
  | some e => .error e
  | none => .ok { index := idx, top_k := k }

/-- The full-rebuild path of `RAGPipeline.build_index`
(`pipeline.py:64-86`).  Returns the call's outcome together with the state
of the object at return or at the point the exception escaped: note
`self.index` is assigned (`pipeline.py:76`) before the retriever is
constructed (`pipeline.py:79`). -/
def rebuild (env : BuildEnv) (st : PipelineState) :
    Except Err Unit × PipelineState :=
  let documents := env.loadedDocuments
  if documents.isEmpty then (.error .emptyCorpus, st)
  else
    match preprocess_documents documents with
    | .error e => (.error e, st)
    | .ok processed_docs =>
      match env.createVectorStore processed_docs with
      | .error e => (.error e, st)
      | .ok idx =>
        let st1 := { st with index := some idx }
        match mkRetriever env idx st.top_k with
        | .error e => (.error e, st1)
        | .ok r => (.ok (), { st1 with retriever := some r })

/-- Embeds `RAGPipeline.build_index` (`pipeline.py:35-86`).  When `force_rebuild`
is false and the persistence directory exists, the reuse path runs inside
a `try` whose handler catches any exception, logs it and falls through to
the full rebuild (`pipeline.py:47-62`); `self.index` is assigned at
`pipeline.py:49` before the retriever is constructed at `pipeline.py:50`. -/
def build_index (env : BuildEnv) (st : PipelineState)
    (force_rebuild : Bool) : Except Err Unit × PipelineState :=
  if !force_rebuild && env.persistExists then
    match env.loadExisting with
    | .ok idx =>
      let st1 := { st with index := some idx }
      match mkRetriever env idx st.top_k with
      | .ok r => (.ok (), { st1 with retriever := some r })
      | .error _ => rebuild env st1
    | .error _ => rebuild env st
  else
    rebuild env st

/-- The two query outcomes `RAGPipeline.query` can return
(`pipeline.py:107-112`). -/
inductive QueryOutcome where
  | retrieval : RetOutcome → QueryOutcome
  | generation : GenOutcome → QueryOutcome
deriving DecidableEq, Repr

/-- Embeds `RAGPipeline.query` (`pipeline.py:88-126`): raises
`ValueError("Pipeline not initialized...")` when no retriever is bound,
otherwise dispatches on `retrieve_only`; the handler at
`pipeline.py:124-126` logs and re-raises any failure unchanged.
(The wall-clock `total_processing_time` field is not modelled.) -/
def pipeline_query (st : PipelineState) (qenv : QueryEnv)
    (query_text : String) (retrieve_only : Bool) : Except Err QueryOutcome :=
  match st.retriever with
  | none => .error .notInitialized
  | some _ =>
    if retrieve_only then
      (retrieve_documents qenv query_text).map QueryOutcome.retrieval
    else
      (generate_response qenv query_text).map QueryOutcome.generation

/-- The request body of `POST /query` (`main.py:111-114`): `top_k` is an
optional per-request override field. -/
structure QueryRequest where
  query : String
  retrieve_only : Bool := false
  top_k : Option Nat := none
deriving DecidableEq, Repr

/-- A generation source or retrieval result entry as carried in the
`sources` field of the response model (`main.py:119`): Python lists of
dicts of either shape. -/
inductive SrcItem where
  | gen : SourceEntry → SrcItem
  | ret : RetEntry → SrcItem
deriving DecidableEq, Repr

/-- The result dict of `rag_pipeline.query` as read by the handler
(`main.py:170-180`): every key the handler `.get`s may be absent. -/
structure PipeDict where
  query : String
  response : Option String := none
  sources : Option (List SourceEntry) := none
  results : Option (List RetEntry) := none
  retrieval_time : Option Rat := none
  total_processing_time : Option Rat := none
  total_results : Option Nat := none
deriving DecidableEq, Repr

/-- The `QueryResponse` model (`main.py:116-122`) as built at
`main.py:170-181`. -/
structure QueryResponse where
  query : String
  response : Option String
  sources : List SrcItem
  retrieval_time : Rat
  total_processing_time : Rat
  meta_total_results : Nat
  meta_retrieve_only : Bool
  meta_response_length : Nat
deriving DecidableEq, Repr

/-- Outcome of one `POST /query` handler invocation: an `HTTPException`
with status and detail, or a successful response body. -/
inductive HandlerResult where
  | httpError : Nat → String → HandlerResult
  | success : QueryResponse → HandlerResult
deriving DecidableEq, Repr

/-- The arguments the handler passes to `rag_pipeline.query`
(`main.py:164-167`), or `none` when the empty-query guard rejects the
request before any pipeline call (`main.py:159-160`). -/
def handlerPipelineCall (req : QueryRequest) : Option (String × Bool) :=
  if pyStrip req.query.toList = [] then none
  else some (req.query, req.retrieve_only)

/-- The `POST /query` handler `query_documents` (`main.py:152-192`),
parameterised by the behaviour `pl` of `rag_pipeline.query`.  The
wall-clock fallback `time.time() - start_time` at `main.py:175` is
modelled as 0.  Note the handler never reads `request.top_k`. -/
def query_documents (pl : String → Bool → Except Err PipeDict)
    (req : QueryRequest) : HandlerResult :=
  if pyStrip req.query.toList = [] then
    .httpError 400 "Query cannot be empty"
  else
    match pl req.query req.retrieve_only with
    | .error e => .httpError 500 e.message
    | .ok result =>
      .success
        { query := result.query
          response := result.response
          sources :=
            match result.sources with
            | some s => s.map SrcItem.gen
            | none => (result.results.getD []).map SrcItem.ret
          retrieval_time := result.retrieval_time.getD 0
          total_processing_time := result.total_processing_time.getD 0
          meta_total_results :=
            result.total_results.getD (result.sources.getD []).length
          meta_retrieve_only := req.retrieve_only
          meta_response_length := (result.response.getD "").length }

/-! ## Helper lemmas -/

lemma contentPreviewOf_short (t : List Char) (h : t.length ≤ 200) :
    contentPreviewOf t = t := by
  simp [contentPreviewOf, Nat.not_lt.mpr h]

lemma contentPreviewOf_long (t : List Char) (h : 200 < t.length) :
    contentPreviewOf t = t.take 200 ++ ellipsisMarker := by
  simp [contentPreviewOf, h]

lemma contentPreviewOf_length (t : List Char) :
    (contentPreviewOf t).length ≤ 203 := by
  unfold contentPreviewOf
  split
  · simp only [List.length_append, List.length_take, ellipsisMarker,
      List.length_cons, List.length_nil]
    omega
  · omega

lemma preprocess_single_document_ok (doc : Doc) (i : Nat) (pd : PDoc)
    (h : preprocess_single_document doc i = .ok pd) :
    ∃ c md, doc.content = some c ∧ doc.metadata = some md ∧
      pd.content = pyStrip c ∧
      pd.metadata.content_preview = contentPreviewOf (pyStrip c) := by
  rcases doc with ⟨c, md⟩
  cases c with
  | none => simp [preprocess_single_document] at h
  | some c =>
    cases md with
    | none => simp [preprocess_single_document] at h
    | some md =>
      simp only [preprocess_single_document, Except.ok.injEq] at h
      exact ⟨c, md, rfl, rfl, by rw [← h], by rw [← h]⟩

lemma count_content_split (docs : List Doc) :
    (docs.countP fun d => d.content.isSome) +
      (docs.countP fun d => d.content.isNone) = docs.length := by
  induction docs with
  | nil => simp
  | cons d rest ih =>
    cases hd : d.content <;> simp [List.countP_cons, hd] <;> omega

lemma preprocess_go_ok (docs : List Doc) :
    ∀ (i : Nat) (acc : List PDoc), (∀ d ∈ docs, d.metadata.isSome) →
      ∃ out, preprocess_go docs i acc = .ok out ∧
        out.length = acc.length + (docs.countP fun d => d.content.isSome) := by
  induction docs with
  | nil => intro i acc _; exact ⟨acc, rfl, by simp⟩
  | cons d rest ih =>
    intro i acc h
    have hmd : d.metadata.isSome := h d (by simp)
    obtain ⟨md, hmd⟩ := Option.isSome_iff_exists.mp hmd
    have hrest : ∀ d' ∈ rest, d'.metadata.isSome := fun d' hd' => h d' (by simp [hd'])
    cases hc : d.content with
    | none =>
      have hstep : preprocess_step d i acc = .ok acc := by
        simp [preprocess_step, preprocess_single_document, hc, hmd]
      obtain ⟨out, hout, hlen⟩ := ih (i + 1) acc hrest
      refine ⟨out, ?_, ?_⟩
      · simp [preprocess_go, hstep, hout]
      · rw [hlen, List.countP_cons]
        simp [hc]
    | some c =>
      have hstep : ∃ pd, preprocess_step d i acc = .ok (acc ++ [pd]) := by
        simp [preprocess_step, preprocess_single_document, hc, hmd]
      obtain ⟨pd, hstep⟩ := hstep
      obtain ⟨out, hout, hlen⟩ := ih (i + 1) (acc ++ [pd]) hrest
      refine ⟨out, ?_, ?_⟩
      · simp [preprocess_go, hstep, hout]
      · rw [hlen, List.countP_cons]
        simp [hc]
        omega

/-! ## Claim C8 -/

/-- Claim C8: for every input document accepted by the chunker, the stored
`content_preview` equals the trimmed content verbatim when its length is at
most 200 characters, equals the first 200 characters followed by the
truncation marker otherwise, and in all cases has length at most 203. -/
theorem chunk_preview_bounded (doc : Doc) (i : Nat) (pd : PDoc)
    (h : preprocess_single_document doc i = .ok pd) :
    (pd.content.length ≤ 200 → pd.metadata.content_preview = pd.content) ∧
    (200 < pd.content.length →
      pd.metadata.content_preview = pd.content.take 200 ++ ellipsisMarker) ∧
    pd.metadata.content_preview.length ≤ 203 := by
  obtain ⟨c, md, _, _, hcon, hprev⟩ := preprocess_single_document_ok doc i pd h
  refine ⟨?_, ?_, ?_⟩
  · intro hle
    rw [hprev, hcon, contentPreviewOf_short _ (hcon ▸ hle)]
  · intro hgt
    rw [hprev, hcon, contentPreviewOf_long _ (hcon ▸ hgt)]
  · rw [hprev]; exact contentPreviewOf_length _

theorem chunk_preview_bounded_witness :
    (({ content := ['h', 'i'],
        metadata := { base := {}, chunk_id := 0, chunk_index := 0,
                      total_chunks := 1,
                      content_preview := ['h', 'i'] } } : PDoc).content.length ≤ 200 →
      ({ content := ['h', 'i'],
         metadata := { base := {}, chunk_id := 0, chunk_index := 0,
                       total_chunks := 1,
                       content_preview := ['h', 'i'] } } : PDoc).metadata.content_preview =
        ({ content := ['h', 'i'],
           metadata := { base := {}, chunk_id := 0, chunk_index := 0,
                         total_chunks := 1,
                         content_preview := ['h', 'i'] } } : PDoc).content) ∧
    (200 < ({ content := ['h', 'i'],
              metadata := { base := {}, chunk_id := 0, chunk_index := 0,
                            total_chunks := 1,
                            content_preview := ['h', 'i'] } } : PDoc).content.length →
      ({ content := ['h', 'i'],
         metadata := { base := {}, chunk_id := 0, chunk_index := 0,
                       total_chunks := 1,
                       content_preview := ['h', 'i'] } } : PDoc).metadata.content_preview =
        ({ content := ['h', 'i'],
           metadata := { base := {}, chunk_id := 0, chunk_index := 0,
                         total_chunks := 1,
                         content_preview := ['h', 'i'] } } : PDoc).content.take 200 ++
          ellipsisMarker) ∧
    ({ content := ['h', 'i'],
       metadata := { base := {}, chunk_id := 0, chunk_index := 0,
                     total_chunks := 1,
                     content_preview := ['h', 'i'] } } : PDoc).metadata.content_preview.length ≤
      203 :=
  chunk_preview_bounded { content := some ['h', 'i'], metadata := some {} } 0 _ rfl

/-! ## Claim C9 -/

/-- Claim C9 counterexample: a document whose dict lacks the `metadata` key
makes the whole `preprocess_documents` call abort with the handler's own
`KeyError` (the handler at `preprocessor.py:40` reads `doc['metadata']`),
so a per-document failure is not always caught and recovered. -/
theorem preprocess_aborts_on_missing_metadata :
    preprocess_documents [{ content := some ['h', 'i'], metadata := none }] =
      .error (.keyError "metadata") := rfl

/-- Claim C9 (amended): for every input sequence in which each document
carries a `metadata` mapping, a failure while chunking a single document is
caught, the document is dropped, the call never aborts, and the output
length equals the input length minus the number of failing documents
(those with no `content` key). -/
theorem preprocess_drops_failing_documents (docs : List Doc)
    (h : ∀ d ∈ docs, d.metadata.isSome) :
    ∃ out, preprocess_documents docs = .ok out ∧
      out.length = docs.length - (docs.countP fun d => d.content.isNone) := by
  obtain ⟨out, hout, hlen⟩ := preprocess_go_ok docs 0 [] h
  refine ⟨out, hout, ?_⟩
  have hsplit := count_content_split docs
  simp at hlen
  omega

theorem preprocess_drops_failing_documents_witness :
    ∃ out,
      preprocess_documents
        [{ content := some ['h', 'i'], metadata := some {} },
         { content := none, metadata := some {} }] = .ok out ∧
      out.length =
        ([{ content := some ['h', 'i'], metadata := some {} },
           { content := none, metadata := some {} }] : List Doc).length -
          (([{ content := some ['h', 'i'], metadata := some {} },
              { content := none, metadata := some {} }] : List Doc).countP
            fun d => d.content.isNone) :=
  preprocess_drops_failing_documents
    [{ content := some ['h', 'i'], metadata := some {} },
     { content := none, metadata := some {} }] (by decide)

/-! ## Claim C5 -/

lemma buildResults_length (s : Nat) (ns : List NodeWithScore) :
    (buildResults s ns).length = ns.length := by
  induction ns generalizing s with
  | nil => rfl
  | cons n rest ih => simp [buildResults, ih]

lemma buildResults_get (ns : List NodeWithScore) :
    ∀ (s i : Nat) (h : i < (buildResults s ns).length) (h' : i < ns.length),
      (buildResults s ns).get ⟨i, h⟩ = mkRetEntry (ns.get ⟨i, h'⟩) (s + i) := by
  induction ns with
  | nil => intro s i h h'; simp at h'
  | cons n rest ih =>
    intro s i h h'
    cases i with
    | zero => simp [buildResults]
    | succ j =>
      have hj : j < (buildResults (s + 1) rest).length := by
        simpa [buildResults] using h
      have hj' : j < rest.length := by simpa using h'
      simp only [buildResults, List.get_cons_succ]
      rw [ih (s + 1) j hj hj']
      congr 1
      omega

lemma buildResults_map_score (s : Nat) (ns : List NodeWithScore) :
    (buildResults s ns).map RetEntry.score = ns.map NodeWithScore.score := by
  induction ns generalizing s with
  | nil => rfl
  | cons n rest ih => simp [buildResults, mkRetEntry, ih]

/-- Claim C5: the retrieval-only path applies no relevance cutoff (every
node the vector search returned yields a result entry with its content and
score passed through), returns at most `topK` results (under the vector
index boundary contract that the search returns at most `topK` nodes in
non-increasing score order), and the result entries carry consecutive
1-based ranks with scores non-increasing by rank. -/
theorem retrieval_only_ranked_no_cutoff (q : String) (k : Nat)
    (nodes : List NodeWithScore)
    (hk : nodes.length ≤ k)
    (hs : scoresNonIncreasing (nodes.map NodeWithScore.score) = true) :
    (retrieve_documents_of q nodes).results.length = nodes.length ∧
    (retrieve_documents_of q nodes).results.length ≤ k ∧
    (∀ (i : Nat) (h : i < (retrieve_documents_of q nodes).results.length)
       (h' : i < nodes.length),
       ((retrieve_documents_of q nodes).results.get ⟨i, h⟩).rank = i + 1 ∧
       ((retrieve_documents_of q nodes).results.get ⟨i, h⟩).content =
         (nodes.get ⟨i, h'⟩).text ∧
       ((retrieve_documents_of q nodes).results.get ⟨i, h⟩).score =
         (nodes.get ⟨i, h'⟩).score) ∧
    scoresNonIncreasing
      ((retrieve_documents_of q nodes).results.map RetEntry.score) = true ∧
    (∀ ans, retrieve_documents { retrieved := .ok nodes, answer := ans } q =
      .ok (retrieve_documents_of q nodes)) := by
  refine ⟨?_, ?_, ?_, ?_, ?_⟩
  · exact buildResults_length 0 nodes
  · show (buildResults 0 nodes).length ≤ k
    rw [buildResults_length]; exact hk
  · intro i h h'
    have hb : i < (buildResults 0 nodes).length := h
    have hget := buildResults_get nodes 0 i hb h'
    show ((buildResults 0 nodes).get ⟨i, hb⟩).rank = i + 1 ∧
        ((buildResults 0 nodes).get ⟨i, hb⟩).content = (nodes.get ⟨i, h'⟩).text ∧
        ((buildResults 0 nodes).get ⟨i, hb⟩).score = (nodes.get ⟨i, h'⟩).score
    rw [hget]
    simp [mkRetEntry]
  · rw [retrieve_documents_of, buildResults_map_score]
    exact hs
  · intro ans; rfl

theorem retrieval_only_ranked_no_cutoff_witness :
    (retrieve_documents_of "w"
      [{ id := 0, text := ['a'], score := some (mkRat 9 10) },
       { id := 1, text := ['b'], score := some (mkRat 1 2) }]).results.length = 2 ∧
    (retrieve_documents_of "w"
      [{ id := 0, text := ['a'], score := some (mkRat 9 10) },
       { id := 1, text := ['b'], score := some (mkRat 1 2) }]).results.length ≤ 5 ∧
    scoresNonIncreasing
      ((retrieve_documents_of "w"
        [{ id := 0, text := ['a'], score := some (mkRat 9 10) },
         { id := 1, text := ['b'], score := some (mkRat 1 2) }]).results.map
        RetEntry.score) = true := by
  obtain ⟨h1, h2, _, h4, _⟩ :=
    retrieval_only_ranked_no_cutoff "w" 5
      [{ id := 0, text := ['a'], score := some (mkRat 9 10) },
       { id := 1, text := ['b'], score := some (mkRat 1 2) }]
      (by decide) (by decide)
  exact ⟨h1, h2, h4⟩

/-! ## Claim C6 -/

/-- Claim C6: for every retrieval outcome and query, the `sources` list
returned by `generate_response` never contains an entry whose score is
below the fixed similarity cutoff of 0.7 (every entry carries a present
score at least `similarity_cutoff = 7/10`). -/
theorem generation_sources_meet_cutoff (qenv : QueryEnv) (q : String)
    (out : GenOutcome) (h : generate_response qenv q = .ok out) :
    ∀ e ∈ out.sources, ∃ s, e.score = some s ∧ similarity_cutoff ≤ s := by
  cases hr : qenv.retrieved with
  | error e => simp [generate_response, queryEngineRun, hr] at h
  | ok nodes =>
    cases ha : qenv.answer with
    | error e => simp [generate_response, queryEngineRun, hr, ha] at h
    | ok a =>
      simp only [generate_response, queryEngineRun, hr, ha, Except.ok.injEq] at h
      intro e he
      rw [← h] at he
      simp only [sourceInfoOf, List.mem_map] at he
      obtain ⟨n, hn, rfl⟩ := he
      rw [similarityPostprocess, List.mem_filter] at hn
      obtain ⟨-, hpred⟩ := hn
      cases hsc : n.score with
      | none => rw [hsc] at hpred; simp at hpred
      | some s =>
        rw [hsc] at hpred
        exact ⟨s, by simp [hsc], of_decide_eq_true hpred⟩

theorem generation_sources_meet_cutoff_witness :
    similarity_cutoff ≤ mkRat 9 10 := by
  obtain ⟨s, hs, hle⟩ :=
    generation_sources_meet_cutoff
      { retrieved := .ok [{ id := 0, text := ['a'], score := some (mkRat 9 10) },
                          { id := 1, text := ['b'], score := some (mkRat 1 2) }]
        answer := .ok "ans" } "q"
      { query := "q", response := "ans"
        sources := [{ filename := "unknown", path := "unknown",
                      score := some (mkRat 9 10) }]
        response_length := 3 }
      rfl
      { filename := "unknown", path := "unknown", score := some (mkRat 9 10) }
      (by simp)
  cases Option.some.inj hs
  exact hle

/-! ## Claim C7 -/

/-- Claim C7: the sources list returned by `generate_response` is in
one-to-one, order-preserving correspondence with the post-cutoff evidence
nodes, and under the vector index boundary contract that the similarity
search returns each indexed chunk at most once (pairwise distinct node
ids), no two source entries refer to the same evidence chunk. -/
theorem generation_sources_dedup (nodes : List NodeWithScore) (ans q : String)
    (hnodup : (nodes.map NodeWithScore.id).Nodup) :
    ∃ out,
      generate_response { retrieved := .ok nodes, answer := .ok ans } q =
        .ok out ∧
      out.sources = sourceInfoOf (similarityPostprocess similarity_cutoff nodes) ∧
      ((similarityPostprocess similarity_cutoff nodes).map
        NodeWithScore.id).Nodup := by
  refine ⟨_, rfl, rfl, ?_⟩
  exact hnodup.sublist (List.Sublist.map _ (List.filter_sublist _))

theorem generation_sources_dedup_witness :
    ((similarityPostprocess similarity_cutoff
        [{ id := 0, text := ['a'], score := some (mkRat 9 10) },
         { id := 1, text := ['b'], score := some (mkRat 8 10) }]).map
      NodeWithScore.id).Nodup := by
  obtain ⟨out, h1, h2, h3⟩ :=
    generation_sources_dedup
      [{ id := 0, text := ['a'], score := some (mkRat 9 10) },
       { id := 1, text := ['b'], score := some (mkRat 8 10) }] "ans" "q"
      (by decide)
  exact h3

/-! ## Claims C1-C3: build_index -/

lemma rebuild_empty (env : BuildEnv) (st : PipelineState)
    (hdocs : env.loadedDocuments = []) :
    rebuild env st = (.error .emptyCorpus, st) := by
  simp [rebuild, hdocs]

lemma rebuild_error_retriever (env : BuildEnv) (st : PipelineState) (e : Err)
    (h : (rebuild env st).1 = .error e) :
    (rebuild env st).2.retriever = st.retriever := by
  cases hdoc : env.loadedDocuments.isEmpty with
  | true => simp [rebuild, hdoc]
  | false =>
    cases hpre : preprocess_documents env.loadedDocuments with
    | error e' => simp [rebuild, hdoc, hpre]
    | ok pds =>
      cases hcv : env.createVectorStore pds with
      | error e' => simp [rebuild, hdoc, hpre, hcv]
      | ok idx =>
        cases hri : env.retrieverInitErr idx with
        | some e' => simp [rebuild, mkRetriever, hdoc, hpre, hcv, hri]
        | none => simp [rebuild, mkRetriever, hdoc, hpre, hcv, hri] at h

/-- Condition under which a `build_index` invocation reaches the full
rebuild path (`pipeline.py:64-86`): a forced rebuild, a missing persistence
directory, or a reuse attempt whose store open or retriever construction
raised (caught and fallen through at `pipeline.py:58-62`). -/
def reaches_full_rebuild (env : BuildEnv) (force_rebuild : Bool) : Prop :=
  force_rebuild = true ∨ env.persistExists = false ∨
    (∃ e, env.loadExisting = .error e) ∨
    (∃ idx, env.loadExisting = .ok idx ∧ ∃ e, env.retrieverInitErr idx = some e)

/-- Claim C1: every `build_index` invocation that reaches the full rebuild
path with the loader producing zero documents fails with the empty-corpus
error, which is propagated to the caller with no silent fallback. -/
theorem build_index_empty_corpus_fatal (env : BuildEnv) (st : PipelineState)
    (force_rebuild : Bool) (hre : reaches_full_rebuild env force_rebuild)
    (hdocs : env.loadedDocuments = []) :
    (build_index env st force_rebuild).1 = .error .emptyCorpus := by
  have hreb : ∀ st' : PipelineState,
      (rebuild env st').1 = .error .emptyCorpus := by
    intro st'; rw [rebuild_empty env st' hdocs]
  cases force_rebuild with
  | true => simpa [build_index] using hreb st
  | false =>
    cases hpe : env.persistExists with
    | false => simpa [build_index, hpe] using hreb st
    | true =>
      cases hle : env.loadExisting with
      | error e => simpa [build_index, hpe, hle] using hreb st
      | ok idx =>
        cases hri : env.retrieverInitErr idx with
        | some e =>
          simpa [build_index, hpe, hle, mkRetriever, hri] using
            hreb { st with index := some idx }
        | none =>
          rcases hre with h | h | ⟨e, h⟩ | ⟨idx', h1, e, h2⟩
          · cases h
          · rw [hpe] at h; cases h
          · rw [hle] at h; cases h
          · rw [hle] at h1
            cases h1
            rw [hri] at h2; cases h2

theorem build_index_empty_corpus_fatal_witness :
    (build_index
      { persistExists := false
        loadExisting := .error (.external "no store")
        loadedDocuments := []
        createVectorStore := fun _ => .error (.external "unused")
        retrieverInitErr := fun _ => none }
      { top_k := 5 } false).1 = .error .emptyCorpus :=
  build_index_empty_corpus_fatal
    { persistExists := false
      loadExisting := .error (.external "no store")
      loadedDocuments := []
      createVectorStore := fun _ => .error (.external "unused")
      retrieverInitErr := fun _ => none }
    { top_k := 5 } false (Or.inr (Or.inl rfl)) rfl

/-- Claim C2: every `build_index` run that raises an error leaves the
currently-served retriever reference unchanged — the `retriever` field is
assigned only after a new retriever is fully constructed, so a previously
ready pipeline keeps its old retriever after a failed build. -/
theorem build_index_error_preserves_retriever (env : BuildEnv)
    (st : PipelineState) (force_rebuild : Bool) (e : Err)
    (h : (build_index env st force_rebuild).1 = .error e) :
    (build_index env st force_rebuild).2.retriever = st.retriever := by
  cases force_rebuild with
  | true =>
    simp only [build_index, Bool.not_true, Bool.false_and, Bool.false_eq_true,
      if_false] at h ⊢
    exact rebuild_error_retriever env st e h
  | false =>
    cases hpe : env.persistExists with
    | false =>
      simp only [build_index, hpe, Bool.not_false, Bool.and_false,
        Bool.false_eq_true, if_false] at h ⊢
      exact rebuild_error_retriever env st e h
    | true =>
      cases hle : env.loadExisting with
      | error e' =>
        simp only [build_index, hpe, hle, Bool.not_false, Bool.and_true,
          if_true] at h ⊢
        exact rebuild_error_retriever env st e h
      | ok idx =>
        cases hri : env.retrieverInitErr idx with
        | some e' =>
          simp only [build_index, hpe, hle, mkRetriever, hri, Bool.not_false,
            Bool.and_true, if_true] at h ⊢
          exact rebuild_error_retriever env { st with index := some idx } e h
        | none =>
          simp [build_index, hpe, hle, mkRetriever, hri] at h

theorem build_index_error_preserves_retriever_witness :
    (build_index
      { persistExists := false
        loadExisting := .error (.external "no store")
        loadedDocuments := []
        createVectorStore := fun _ => .error (.external "unused")
        retrieverInitErr := fun _ => none }
      { top_k := 5, index := some { id := 7 }
        retriever := some { index := { id := 7 }, top_k := 5 } }
      true).2.retriever = some { index := { id := 7 }, top_k := 5 } :=
  build_index_error_preserves_retriever
    { persistExists := false
      loadExisting := .error (.external "no store")
      loadedDocuments := []
      createVectorStore := fun _ => .error (.external "unused")
      retrieverInitErr := fun _ => none }
    { top_k := 5, index := some { id := 7 }
      retriever := some { index := { id := 7 }, top_k := 5 } }
    true .emptyCorpus rfl

/-- Claim C3: a `build_index(force_rebuild=False)` call with an existing
persistence directory attempts the store-open path first, and any failure
of that open is never propagated: the call behaves exactly as the full
rebuild path (the open error is logged and swallowed). -/
theorem build_index_reuse_failure_falls_through (env : BuildEnv)
    (st : PipelineState) (e : Err) (hpe : env.persistExists = true)
    (hle : env.loadExisting = .error e) :
    build_index env st false = rebuild env st := by
  simp [build_index, hpe, hle]

theorem build_index_reuse_failure_falls_through_witness :
    build_index
      { persistExists := true
        loadExisting := .error (.external "collection missing")
        loadedDocuments := [{ content := some ['h'], metadata := some {} }]
        createVectorStore := fun _ => .ok { id := 1 }
        retrieverInitErr := fun _ => none }
      { top_k := 5 } false =
    rebuild
      { persistExists := true
        loadExisting := .error (.external "collection missing")
        loadedDocuments := [{ content := some ['h'], metadata := some {} }]
        createVectorStore := fun _ => .ok { id := 1 }
        retrieverInitErr := fun _ => none }
      { top_k := 5 } :=
  build_index_reuse_failure_falls_through
    { persistExists := true
      loadExisting := .error (.external "collection missing")
      loadedDocuments := [{ content := some ['h'], metadata := some {} }]
      createVectorStore := fun _ => .ok { id := 1 }
      retrieverInitErr := fun _ => none }
    { top_k := 5 } (.external "collection missing") rfl rfl

/-! ## Claim C4 -/

/-- Claim C4: `query` before any successful `build_index` (no retriever
bound) fails with the not-initialized error; with a retriever bound it
dispatches to the retrieval or generation path per the `retrieve_only`
flag, and any underlying retrieval failure propagates unchanged to the
caller. -/
theorem query_requires_ready_and_dispatches (st : PipelineState)
    (qenv : QueryEnv) (text : String) (retrieve_only : Bool) :
    (st.retriever = none →
      pipeline_query st qenv text retrieve_only = .error .notInitialized) ∧
    (st.retriever.isSome →
      pipeline_query st qenv text retrieve_only =
        (if retrieve_only then
           (retrieve_documents qenv text).map QueryOutcome.retrieval
         else
           (generate_response qenv text).map QueryOutcome.generation)) ∧
    (∀ e, st.retriever.isSome → qenv.retrieved = .error e →
      pipeline_query st qenv text retrieve_only = .error e) := by
  refine ⟨?_, ?_, ?_⟩
  · intro h; simp [pipeline_query, h]
  · intro h
    obtain ⟨r, hr⟩ := Option.isSome_iff_exists.mp h
    simp [pipeline_query, hr]
  · intro e h hre
    obtain ⟨r, hr⟩ := Option.isSome_iff_exists.mp h
    cases retrieve_only <;>
      simp [pipeline_query, hr, retrieve_documents, generate_response,
        queryEngineRun, hre, Except.map]

theorem query_requires_ready_and_dispatches_witness :
    pipeline_query { top_k := 5 }
      { retrieved := .ok [], answer := .ok "ans" } "q" true =
      .error .notInitialized :=
  (query_requires_ready_and_dispatches { top_k := 5 }
    { retrieved := .ok [], answer := .ok "ans" } "q" true).1 rfl

/-! ## Claim C10 -/

/-- Claim C10: two submit-query requests that are identical except for the
optional `top_k` override field produce the same pipeline call and the same
response from the `/query` handler — the per-request `top_k` override has
no effect on the endpoint's behaviour. -/
theorem query_handler_ignores_top_k
    (pl : String → Bool → Except Err PipeDict) (r1 r2 : QueryRequest)
    (hq : r1.query = r2.query)
    (hro : r1.retrieve_only = r2.retrieve_only) :
    query_documents pl r1 = query_documents pl r2 ∧
    handlerPipelineCall r1 = handlerPipelineCall r2 := by
  constructor
  · unfold query_documents
    rw [hq, hro]
  · unfold handlerPipelineCall
    rw [hq, hro]

theorem query_handler_ignores_top_k_witness :
    query_documents (fun _ _ => .error (.external "down"))
      { query := "hello", retrieve_only := false, top_k := none } =
    query_documents (fun _ _ => .error (.external "down"))
      { query := "hello", retrieve_only := false, top_k := some 50 } ∧
    handlerPipelineCall
      { query := "hello", retrieve_only := false, top_k := none } =
    handlerPipelineCall
      { query := "hello", retrieve_only := false, top_k := some 50 } :=
  query_handler_ignores_top_k (fun _ _ => .error (.external "down"))
    { query := "hello", retrieve_only := false, top_k := none }
    { query := "hello", retrieve_only := false, top_k := some 50 } rfl rfl
